import Mathlib

/-!
Verification of `daily_tao_to_discord.py` (tao-discord-notifier).

Shallow embedding conventions:
* Python exceptions are modelled with `Except String`: `.error msg` is a raised
  exception carrying `str(exc)`, `.ok` a normal return.
* Python floats are modelled as exact rationals `ℚ`; every numeric value the
  claims exercise (integers up to a few units of 1e9, divided by 1e9 and
  formatted to 4 or 6 decimal places) is exactly representable in binary64,
  so the rational semantics agrees with the float semantics there.
* Dates are modelled as day numbers (days since 1970-01-01, as `Int`);
  `timedelta(days=n)` is subtraction of day numbers, and
  `strftime("%Y-%m-%d")` / `isoformat()` are `dateStr` via the standard
  civil-from-days Gregorian conversion.
* The three HTTP boundaries are inputs: each fetch takes the outcome of its
  `_make_api_request` call (exception, or the parsed `data` array restricted
  to the fields the code reads), and the webhook post takes an `HttpOutcome`
  describing what `urllib.request.urlopen` did.
* Writes to stdout/stderr that are pure logging (debug diagnostics, the
  success confirmation line) are elided; the orchestrator-level stderr write
  on delivery failure is modelled explicitly since the spec mentions it.
-/

namespace TaoNotifier

/-- `RAO_TO_TAO = 10**9`: 1 TAO = 1e9 RAO. -/
def RAO_TO_TAO : ℚ := 10 ^ 9

/-- `ALPHA_TOKEN_SYMBOLS`: the static netuid → alpha token symbol table. -/
def ALPHA_TOKEN_SYMBOLS (netuid : Int) : Option String :=
  if netuid = 41 then some "נ"
  else if netuid = 64 then some "ش"
  else none

/-- `MinerEarning`: TAO earnings for a coldkey (`amount_tao` is a Python float,
modelled as an exact rational). -/
structure MinerEarning where
  coldkey : String
  amount_tao : ℚ
deriving Repr, DecidableEq

/-- `AlphaStakeBalance`: alpha staked balance for a subnet. -/
structure AlphaStakeBalance where
  netuid : Int
  balance_rao : String
  balance_as_tao : String
  hotkey_name : Option String := none
deriving Repr, DecidableEq

/-- One record of the accounting endpoint response, restricted to the only
field the code reads; `none` models an absent `balance_staked` key (the code
reads it with `.get("balance_staked", "0")`). -/
structure AccountRecord where
  balance_staked : Option String
deriving Repr, DecidableEq

/-- One record of the stake-balance endpoint response, restricted to the four
fields the code reads with `.get`. -/
structure StakeItem where
  netuid : Option Int
  balance : Option String
  balance_as_tao : Option String
  hotkey_name : Option String
deriving Repr, DecidableEq

/-- The environment-sourced configuration globals.  An `Option String` is
`none` when the variable is unset; Python truthiness on these strings is
`strOptFalsy`. -/
structure Env where
  DISCORD_WEBHOOK_URL : Option String
  TAOSTATS_API_KEY : Option String
  MINER_ADDRESSES : Option String
  LOOKBACK_DAYS : Int
  TAO_NETWORK : String
deriving Repr, DecidableEq

/-- Python truthiness test `not x` for an optional string: true when the
variable is unset or the empty string. -/
def strOptFalsy (o : Option String) : Bool :=
  match o with
  | none => true
  | some s => s.isEmpty

/-- Python `s.startswith(p)`, as a structural character-prefix test. -/
def strStartsWith (s p : String) : Bool :=
  List.isPrefixOf p.toList s.toList

/- ### Numeric helpers: Python `float()` parsing and `%.Nf` formatting -/

/-- Numeric value of a list of decimal digit characters. -/
def digitsVal (l : List Char) : Nat :=
  l.foldl (fun acc c => acc * 10 + (c.toNat - 48)) 0

/-- Python `float(s)`, modelled on the decimal-literal fragment of its input
grammar (optional sign, integer digits, optional fractional digits): returns
the exact rational value, or an exception (`ValueError`) for anything else. -/
def pyFloat (s : String) : Except String ℚ :=
  let cs := s.toList
  let p : Int × List Char :=
    match cs with
    | '-' :: rest => (-1, rest)
    | '+' :: rest => (1, rest)
    | _ => (1, cs)
  let ip := p.2.takeWhile Char.isDigit
  let rest := p.2.dropWhile Char.isDigit
  match rest with
  | [] =>
    if ip.isEmpty then .error ("could not convert string to float: " ++ s)
    else .ok (mkRat (p.1 * (digitsVal ip : Int)) 1)
  | '.' :: fp =>
    if fp.all Char.isDigit && !(ip.isEmpty && fp.isEmpty) then
      .ok (mkRat (p.1 * ((digitsVal ip * 10 ^ fp.length + digitsVal fp : Nat) : Int))
        (10 ^ fp.length))
    else .error ("could not convert string to float: " ++ s)
  | _ => .error ("could not convert string to float: " ++ s)

/-- Round `a / b` (with `b > 0`) to the nearest integer, ties to even — the
rounding used by Python float formatting; exact on the values the claims
exercise. -/
def roundDivHalfEven (a : Int) (b : Nat) : Int :=
  let q := Int.fdiv a b
  let r := a - q * b
  if 2 * r < b then q
  else if (b : Int) < 2 * r then q + 1
  else if q % 2 = 0 then q else q + 1

/-- Left-pad a string with zeros to length `d`. -/
def padZeros (d : Nat) (s : String) : String :=
  if s.length ≥ d then s else String.mk (List.replicate (d - s.length) '0') ++ s

/-- Python `f"{q:.df}"` fixed-point formatting of a (nonnegative-in-practice)
float, modelled on exact rationals: the rounded integer `n` is the value
`q * 10^d` rounded half-to-even, computed on the reduced fraction. -/
def formatFixed (d : Nat) (q : ℚ) : String :=
  let n := roundDivHalfEven (q.num * (10 : Int) ^ d) q.den
  let m := n.natAbs
  (if n < 0 then "-" else "") ++ toString (m / 10 ^ d) ++ "." ++
    padZeros d (toString (m % 10 ^ d))

/- ### Dates -/

/-- Gregorian (year, month, day) of a day number (days since 1970-01-01),
the standard civil-from-days conversion. -/
def civilFromDays (z0 : Int) : Int × Nat × Nat :=
  let z := z0 + 719468
  let era : Int := Int.fdiv z 146097
  let doe : Nat := (z - era * 146097).toNat
  let yoe : Nat := (doe - doe / 1460 + doe / 36524 - doe / 146096) / 365
  let doy : Nat := doe - (365 * yoe + yoe / 4 - yoe / 100)
  let mp : Nat := (5 * doy + 2) / 153
  let d : Nat := doy - (153 * mp + 2) / 5 + 1
  let m : Nat := if mp < 10 then mp + 3 else mp - 9
  let y : Int := (yoe : Int) + era * 400 + (if m ≤ 2 then 1 else 0)
  (y, m, d)

/-- Two-digit zero padding. -/
def pad2 (n : Nat) : String :=
  if n < 10 then "0" ++ toString n else toString n

/-- `date.strftime("%Y-%m-%d")` / `date.isoformat()` on a day number. -/
def dateStr (days : Int) : String :=
  let c := civilFromDays days
  toString c.1 ++ "-" ++ pad2 c.2.1 ++ "-" ++ pad2 c.2.2

/- ### Config Loader -/

/-- `DailyTaoReporter._validate_config` (also the whole of `__init__`): the
checks are pure reads of the configuration globals, performed in source order;
no network call occurs anywhere in construction. -/
def validate_config (env : Env) : Except String Unit :=
  if strOptFalsy env.DISCORD_WEBHOOK_URL then
    .error "DISCORD_WEBHOOK_URL environment variable is required"
  else if !strStartsWith (env.DISCORD_WEBHOOK_URL.getD "") "https://discord.com/api/webhooks/" then
    .error ("Invalid Discord webhook URL format. Expected: https://discord.com/api/webhooks/... Got: "
      ++ (env.DISCORD_WEBHOOK_URL.getD "").take 60 ++ "...")
  else if strOptFalsy env.TAOSTATS_API_KEY then
    .error "TAOSTATS_API_KEY environment variable is required"
  else if strOptFalsy env.MINER_ADDRESSES then
    .error "MINER_ADDRESSES environment variable is required"
  else .ok ()

/- ### Accounting Client -/

/-- `DailyTaoReporter.fetch_earnings`, with the outcome of
`_make_api_request` (already projected to the `data` array) as input.  The
`except Exception: raise` wrapper only re-raises, so exceptions pass through
unchanged. -/
def fetch_earnings (addr : String) (resp : Except String (List AccountRecord)) :
    Except String (List MinerEarning) :=
  match resp with
  | .error e => .error e
  | .ok data =>
    match data with
    | [] => .ok [⟨addr, 0⟩]
    | first_record :: _ =>
      let balance_staked := first_record.balance_staked.getD "0"
      if balance_staked.isEmpty then .ok [⟨addr, 0⟩]
      else
        match pyFloat balance_staked with
        | .error e => .error e
        | .ok v => .ok [⟨addr, v / RAO_TO_TAO⟩]

/- ### Alpha-Stake Client -/

/-- `DailyTaoReporter.fetch_alpha_rewards`: any exception from the request or
parse (`.error` input) is swallowed and `[]` returned; records without a
`netuid` are dropped; missing `balance` / `balance_as_tao` default to `"0"`. -/
def fetch_alpha_rewards (addr : String) (resp : Except String (List StakeItem)) :
    List AlphaStakeBalance :=
  match resp with
  | .error _ => []
  | .ok data =>
    if data.isEmpty then []
    else
      data.filterMap fun item =>
        match item.netuid with
        | none => none
        | some n =>
          some ⟨n, item.balance.getD "0", item.balance_as_tao.getD "0", item.hotkey_name⟩

/- ### Message Builder -/

/-- `DailyTaoReporter._get_date_range`: `(None, None, None, None)` when
`LOOKBACK_DAYS ≤ 0`, else the formatted and raw `[today - lookback, today]`
range in UTC calendar days. -/
def _get_date_range (lookback : Int) (today : Int) :
    Option String × Option String × Option Int × Option Int :=
  if lookback ≤ 0 then (none, none, none, none)
  else
    let start_date := today - lookback
    (some (dateStr start_date), some (dateStr today), some start_date, some today)

/-- The header chosen by `build_message` (source lines 238-244); `today` is
`datetime.now(timezone.utc).date()` as a day number. -/
def buildHeader (lookback : Int) (today : Int) : String :=
  let r := _get_date_range lookback today
  if lookback ≤ 0 then "📊 Total TAO Earnings (All Time)"
  else if lookback = 1 then
    "📊 Daily TAO Earnings — " ++
      (match r.2.2.2 with
       | some e => dateStr e
       | none => "N/A")
  else
    "📊 TAO Earnings — " ++ r.1.getD "None" ++ " → " ++ r.2.1.getD "None"

/-- The earnings section of `build_message` (source lines 249-260): entry
lines, total line and trailing blank, or the no-data line. -/
def earningsSection (earnings : List MinerEarning) : List String :=
  if earnings.isEmpty then
    ["**💰 TAO Earnings:** No earnings data available.", ""]
  else
    let entryLines := earnings.map fun entry =>
      "• `" ++ entry.coldkey.take 20 ++ "...`: **" ++
        formatFixed 6 entry.amount_tao ++ " TAO**"
    let total := earnings.foldl (fun acc entry => acc + entry.amount_tao) 0
    "**💰 TAO Earnings:**" :: entryLines ++
      ["**Total Earnings:** " ++ formatFixed 6 total ++ " TAO across " ++
        toString earnings.length ++ " coldkey(s)", ""]

/-- The `hotkey_info` fragment of an alpha line: present and non-empty names
only (Python truthiness on `balance.hotkey_name`). -/
def hotkeyInfo (balance : AlphaStakeBalance) : String :=
  match balance.hotkey_name with
  | some h => if h.isEmpty then "" else " (" ++ h ++ ")"
  | none => ""

/-- One line of the alpha section (source lines 267-277); `float()` on the
raw balance string can raise, which propagates out of `build_message`. -/
def alphaLine (balance : AlphaStakeBalance) : Except String String :=
  match pyFloat balance.balance_rao with
  | .error e => .error e
  | .ok v =>
    let balance_tao := v / RAO_TO_TAO
    let token_symbol := (ALPHA_TOKEN_SYMBOLS balance.netuid).getD "α"
    .ok ("• Subnet **" ++ toString balance.netuid ++ "**" ++ hotkeyInfo balance ++
      ": **" ++ formatFixed 4 balance_tao ++ " " ++ token_symbol ++ "**")

/-- The body of the alpha-section `for` loop: one line per balance in order,
stopping at (and propagating) the first `float()` exception, exactly as the
Python loop does. -/
def alphaLinesLoop : List AlphaStakeBalance → Except String (List String)
  | [] => .ok []
  | b :: rest =>
    match alphaLine b with
    | .error e => .error e
    | .ok l =>
      match alphaLinesLoop rest with
      | .error e => .error e
      | .ok ls => .ok (l :: ls)

/-- The alpha section of `build_message` (source lines 263-281): section
header plus one line per balance, or the no-data line.  (The running
`total_alpha_tao` in the source is computed but never rendered.) -/
def alphaSection (alpha : List AlphaStakeBalance) : Except String (List String) :=
  if alpha.isEmpty then
    .ok ["**🔷 Alpha Staked Balances:** No alpha stake data available."]
  else
    match alphaLinesLoop alpha with
    | .error e => .error e
    | .ok ls => .ok ("**🔷 Alpha Staked Balances:**" :: ls)

/-- `"\n".join(lines)`. -/
def joinLines : List String → String
  | [] => ""
  | [a] => a
  | a :: b :: rest => a ++ "\n" ++ joinLines (b :: rest)

/-- `DailyTaoReporter.build_message`.  `alpha = []` covers both the default
`None` and an empty list (both falsy in `if alpha_balances:`). -/
def build_message (lookback : Int) (network : String) (earnings : List MinerEarning)
    (alpha : List AlphaStakeBalance) (today : Int) : Except String String :=
  match alphaSection alpha with
  | .error e => .error e
  | .ok alphaL =>
    .ok (joinLines ((buildHeader lookback today ::
      ("Network: **" ++ network ++ "**") :: "" :: earningsSection earnings) ++ alphaL))

/- ### Notifier -/

/-- What `urllib.request.urlopen` did for the webhook POST: returned a
response (status and body), raised `urllib.error.HTTPError` (code, reason,
and the body read from the error — `""` when absent or unreadable), or raised
`urllib.error.URLError` (transport failure: DNS, connection refused,
timeout). -/
inductive HttpOutcome where
  | response (status : Nat) (body : String)
  | httpError (code : Nat) (reason : String) (body : String)
  | urlError (reason : String)
deriving Repr, DecidableEq

/-- The diagnostic suffix appended for HTTP 403. -/
def hint403 : String :=
  "\nPossible causes:\n  - Webhook URL is invalid or expired\n  - Webhook was deleted from Discord server\n  - Check your .env file has the correct DISCORD_WEBHOOK_URL\n  - Create a new webhook in Discord: Server Settings → Integrations → Webhooks"

/-- The diagnostic suffix appended for HTTP 404. -/
def hint404 : String :=
  "\nWebhook not found. The webhook may have been deleted."

/-- `DailyTaoReporter.post_to_discord`: re-validates the webhook URL, then
classifies the POST outcome.  A status outside {200, 204} on a returned
response raises a `RuntimeError` (not caught by the `HTTPError`/`URLError`
handlers); `HTTPError` and `URLError` are converted to `RuntimeError`s with
the messages below. -/
def post_to_discord (webhook : Option String) (outcome : HttpOutcome) :
    Except String Unit :=
  if strOptFalsy webhook ||
      !strStartsWith (webhook.getD "") "https://discord.com/api/webhooks/" then
    .error ("Invalid Discord webhook URL format. Expected: https://discord.com/api/webhooks/... Got: "
      ++ (if strOptFalsy webhook then "None" else (webhook.getD "").take 50) ++ "...")
  else
    match outcome with
    | .response status body =>
      if status = 200 ∨ status = 204 then .ok ()
      else .error ("Discord returned status " ++ toString status ++ ": " ++ body)
    | .httpError code reason body =>
      let error_msg := "HTTP " ++ toString code ++ ": " ++ reason ++
        (if body.isEmpty then "" else " - " ++ body)
      let error_msg := error_msg ++
        (if code = 403 then hint403 else if code = 404 then hint404 else "")
      .error ("Failed to send Discord message: " ++ error_msg)
    | .urlError reason =>
      .error ("Network error connecting to Discord: " ++ reason)

/- ### Run Orchestrator -/

/-- The degraded message substituted when the fetch/build phase raises. -/
def degradedMessage (exc : String) : String :=
  "⚠️ Daily TAO Earnings — data unavailable\nReason: " ++ exc

/-- Phase 1 of `DailyTaoReporter.run`: fetch earnings, fetch alpha balances
(which never raises), build the message. -/
def fetchAndBuild (env : Env) (earnResp : Except String (List AccountRecord))
    (alphaResp : Except String (List StakeItem)) (today : Int) :
    Except String String :=
  match fetch_earnings (env.MINER_ADDRESSES.getD "") earnResp with
  | .error e => .error e
  | .ok earnings =>
    let alpha := fetch_alpha_rewards (env.MINER_ADDRESSES.getD "") alphaResp
    build_message env.LOOKBACK_DAYS env.TAO_NETWORK earnings alpha today

/-- Result of one run: the process exit code, the message handed to
`post_to_discord`, and what was written to stderr by `run` itself. -/
structure RunResult where
  exitCode : Nat
  posted : String
  stderrLines : List String
deriving Repr, DecidableEq

/-- `DailyTaoReporter.run`: any exception from phase 1 is replaced by the
degraded message; the message is posted; a posting exception is written to
stderr and yields exit code 1, otherwise exit code 0. -/
def run (env : Env) (earnResp : Except String (List AccountRecord))
    (alphaResp : Except String (List StakeItem)) (today : Int)
    (outcome : HttpOutcome) : RunResult :=
  let message :=
    match fetchAndBuild env earnResp alphaResp today with
    | .ok m => m
    | .error exc => degradedMessage exc
  match post_to_discord env.DISCORD_WEBHOOK_URL outcome with
  | .ok _ => ⟨0, message, []⟩
  | .error e => ⟨1, message, ["Failed to send Discord message: " ++ e]⟩

/- ### Concrete fixtures used by witnesses and concrete claims -/

/-- A fully valid configuration. -/
def env0 : Env :=
  ⟨some "https://discord.com/api/webhooks/1/t", some "key", some "addr", 10, "finney"⟩

/-- A configuration with the webhook URL unset. -/
def envBad : Env := ⟨none, some "key", some "addr", 10, "finney"⟩

/-- The earnings entry of claim C7: raw amount 1500000000 RAO converted to
TAO as `fetch_earnings` does. -/
def e7 : MinerEarning := ⟨"abc", (1500000000 : ℚ) / RAO_TO_TAO⟩

/-- Subnet-41 stake of claim C8. -/
def b41 : AlphaStakeBalance := ⟨41, "2000000000", "2", none⟩

/-- Unmapped-subnet stake of claim C8. -/
def b99 : AlphaStakeBalance := ⟨99, "2000000000", "2", none⟩

end TaoNotifier

deriving instance DecidableEq for Except

namespace TaoNotifier

/- Batteries marks the `Rat` field operations `@[irreducible]`; re-enable
definitional unfolding locally so that concrete runs of the pipeline can be
settled by `decide`. -/
attribute [local semireducible] Rat.mul Rat.add Rat.sub Rat.inv

/- ### Helper lemmas -/

/-- `"\n".join` unfolds one line at a time. -/
theorem joinLines_cons_cons (a b : String) (l : List String) :
    joinLines (a :: b :: l) = a ++ "\n" ++ joinLines (b :: l) := rfl

/-- Shape of a successful `build_message`: header line first, then the rest. -/
theorem build_message_ok_shape (lookback : Int) (network : String)
    (earnings : List MinerEarning) (alpha : List AlphaStakeBalance) (today : Int)
    (alphaL : List String) (ha : alphaSection alpha = .ok alphaL) :
    build_message lookback network earnings alpha today =
      .ok (buildHeader lookback today ++ "\n" ++
        joinLines ((("Network: **" ++ network ++ "**") :: "" ::
          earningsSection earnings) ++ alphaL)) := by
  unfold build_message
  rw [ha]
  rfl

/-- Every balance in a list successfully rendered by the alpha-section loop
contributes its own line, built from its parsed raw balance, hotkey fragment
and symbol-table lookup. -/
theorem alphaLinesLoop_ok_mem :
    ∀ (l : List AlphaStakeBalance) (out : List String),
      alphaLinesLoop l = .ok out →
      ∀ b ∈ l, ∃ v, pyFloat b.balance_rao = .ok v ∧
        ("• Subnet **" ++ toString b.netuid ++ "**" ++ hotkeyInfo b ++ ": **" ++
          formatFixed 4 (v / RAO_TO_TAO) ++ " " ++
          (ALPHA_TOKEN_SYMBOLS b.netuid).getD "α" ++ "**") ∈ out := by
  intro l
  induction l with
  | nil =>
    intro out h b hb
    simp at hb
  | cons x xs ih =>
    intro out h b hb
    cases hx : alphaLine x with
    | error e => simp [alphaLinesLoop, hx] at h
    | ok line =>
      cases hxs : alphaLinesLoop xs with
      | error e => simp [alphaLinesLoop, hx, hxs] at h
      | ok ls =>
        simp only [alphaLinesLoop, hx, hxs] at h
        have hout : line :: ls = out := by simpa using h
        rcases List.mem_cons.mp hb with rfl | hbx
        · cases hpv : pyFloat b.balance_rao with
          | error e => simp [alphaLine, hpv] at hx
          | ok v =>
            refine ⟨v, rfl, ?_⟩
            have hline : line =
                "• Subnet **" ++ toString b.netuid ++ "**" ++ hotkeyInfo b ++ ": **" ++
                  formatFixed 4 (v / RAO_TO_TAO) ++ " " ++
                  (ALPHA_TOKEN_SYMBOLS b.netuid).getD "α" ++ "**" := by
              have := hx
              simp [alphaLine, hpv] at this
              exact this.symm
            rw [← hout, hline]
            exact List.mem_cons_self _ _
        · obtain ⟨v, hv, hmem⟩ := ih ls hxs b hbx
          exact ⟨v, hv, by rw [← hout]; exact List.mem_cons_of_mem _ hmem⟩

/- ### Claim theorems -/

/-- C2: every exception raised inside the alpha-stake fetch path (the
`.error` outcome of its request/parse phase) yields an empty list; the return
type `List AlphaStakeBalance` (not `Except`) records that nothing
propagates. -/
theorem c2_alpha_fetch_swallows (addr : String) (e : String) :
    fetch_alpha_rewards addr (.error e) = [] := rfl

/-- C4: an envelope with an empty `data` array makes `fetch_earnings` return
exactly one `MinerEarning` with amount 0.0 for the configured address, and it
returns normally (never raises). -/
theorem c4_empty_data_zero_earning (addr : String) :
    fetch_earnings addr (.ok []) = .ok [⟨addr, 0⟩] := rfl

set_option maxRecDepth 4000 in
/-- C5: construction (`__init__` = `_validate_config`) succeeds exactly when
the webhook URL is set, non-empty and has the Discord webhook prefix, the API
key is set and non-empty, and the miner addresses are set and non-empty; in
every other case it fails with a configuration error.  The function is a pure
check over the configuration: no network call occurs in the source before or
during validation. -/
theorem c5_validate_config_iff (env : Env) :
    (validate_config env = .ok () ↔
      strOptFalsy env.DISCORD_WEBHOOK_URL = false ∧
      strStartsWith (env.DISCORD_WEBHOOK_URL.getD "") "https://discord.com/api/webhooks/" = true ∧
      strOptFalsy env.TAOSTATS_API_KEY = false ∧
      strOptFalsy env.MINER_ADDRESSES = false) ∧
    (validate_config env ≠ .ok () → ∃ msg, validate_config env = .error msg) := by
  constructor
  · cases h1 : strOptFalsy env.DISCORD_WEBHOOK_URL <;>
      cases h2 : strStartsWith (env.DISCORD_WEBHOOK_URL.getD "") "https://discord.com/api/webhooks/" <;>
      cases h3 : strOptFalsy env.TAOSTATS_API_KEY <;>
      cases h4 : strOptFalsy env.MINER_ADDRESSES <;>
      simp [validate_config, h1, h2, h3, h4]
  · intro hne
    cases hv : validate_config env with
    | ok u => cases u; exact absurd hv hne
    | error msg => exact ⟨msg, rfl⟩

set_option maxRecDepth 8000 in
/-- C5 witness: a fully valid configuration validates, and one with the
webhook URL unset fails with a configuration error. -/
theorem c5_validate_config_iff_witness :
    validate_config env0 = .ok () ∧ (∃ msg, validate_config envBad = .error msg) :=
  ⟨(c5_validate_config_iff env0).1.mpr (by decide),
   (c5_validate_config_iff envBad).2 (by decide)⟩

/-- C9: whenever `fetch_earnings` returns, it returns exactly one earning
whose coldkey is the whole configured `MINER_ADDRESSES` string verbatim (the
comma-separated setting is never split), and the result depends only on the
first record of the upstream response. -/
theorem c9_single_earning_first_record (addr : String)
    (resp : Except String (List AccountRecord)) :
    (∀ result, fetch_earnings addr resp = .ok result → ∃ amt, result = [⟨addr, amt⟩]) ∧
    (∀ (r : AccountRecord) (rest rest2 : List AccountRecord),
      fetch_earnings addr (.ok (r :: rest)) = fetch_earnings addr (.ok (r :: rest2))) := by
  constructor
  · intro result h
    cases resp with
    | error e => simp [fetch_earnings] at h
    | ok data =>
      cases data with
      | nil =>
        simp [fetch_earnings] at h
        exact ⟨0, h.symm⟩
      | cons r rest =>
        by_cases hb : (r.balance_staked.getD "0").isEmpty
        · simp [fetch_earnings, hb] at h
          exact ⟨0, h.symm⟩
        · cases hv : pyFloat (r.balance_staked.getD "0") with
          | error e => simp [fetch_earnings, hb, hv] at h
          | ok v =>
            simp [fetch_earnings, hb, hv] at h
            exact ⟨v / RAO_TO_TAO, h.symm⟩
  · intro r rest rest2
    rfl

/-- C9 witness: a comma-separated multi-address configuration comes back as
one earning carrying the whole string. -/
theorem c9_single_earning_first_record_witness :
    ∃ amt, [(⟨"addr1,addr2", 0⟩ : MinerEarning)] = [⟨"addr1,addr2", amt⟩] :=
  (c9_single_earning_first_record "addr1,addr2" (.ok [])).1 [⟨"addr1,addr2", 0⟩] rfl

/-- C10: a first record without a `balance_staked` field (the `.get` default
`"0"` applies) or with an empty-string value yields a single earning with
amount 0.0 and no exception. -/
theorem c10_missing_or_empty_balance (addr : String) (rest : List AccountRecord) :
    fetch_earnings addr (.ok (⟨none⟩ :: rest)) = .ok [⟨addr, 0⟩] ∧
    fetch_earnings addr (.ok (⟨some ""⟩ :: rest)) = .ok [⟨addr, 0⟩] := by
  have h0 : pyFloat "0" = .ok 0 := by decide
  have hz : (0 : ℚ) / RAO_TO_TAO = 0 := zero_div _
  have he : "".isEmpty = true := rfl
  constructor
  · simp [fetch_earnings, h0, hz]
  · simp [fetch_earnings, he]

/-- C3: with a valid webhook URL, `post_to_discord` returns normally exactly
when the POST came back with status 200 or 204; any other returned status
becomes an error carrying the status code and response body; an HTTP error
raised by the transport (as `urllib` does for 4xx/5xx) becomes an error
carrying the code, reason and body (plus the cosmetic 403/404 hints); and a
transport-level failure becomes an error carrying the underlying reason. -/
theorem c3_post_outcome_classification (w : Option String)
    (h1 : strOptFalsy w = false)
    (h2 : strStartsWith (w.getD "") "https://discord.com/api/webhooks/" = true) :
    (∀ status body, post_to_discord w (.response status body) = .ok () ↔
      status = 200 ∨ status = 204) ∧
    (∀ status body, ¬(status = 200 ∨ status = 204) →
      post_to_discord w (.response status body) =
        .error ("Discord returned status " ++ toString status ++ ": " ++ body)) ∧
    (∀ code reason body, post_to_discord w (.httpError code reason body) =
      .error ("Failed to send Discord message: " ++
        ("HTTP " ++ toString code ++ ": " ++ reason ++
          (if body.isEmpty then "" else " - " ++ body) ++
          (if code = 403 then hint403 else if code = 404 then hint404 else "")))) ∧
    (∀ reason, post_to_discord w (.urlError reason) =
      .error ("Network error connecting to Discord: " ++ reason)) := by
  refine ⟨?_, ?_, ?_, ?_⟩
  · intro status body
    by_cases hs : status = 200 ∨ status = 204 <;>
      simp [post_to_discord, h1, h2, hs]
  · intro status body hs
    simp [post_to_discord, h1, h2, hs]
  · intro code reason body
    simp [post_to_discord, h1, h2, String.append_assoc]
  · intro reason
    simp [post_to_discord, h1, h2]

set_option maxRecDepth 8000 in
/-- C3 witness: at the valid fixture URL, a 204 response returns normally,
and a 500 HTTP error raises a delivery error containing the code 500 and the
response body. -/
theorem c3_post_outcome_classification_witness :
    post_to_discord (some "https://discord.com/api/webhooks/1/t") (.response 204 "") = .ok () ∧
    post_to_discord (some "https://discord.com/api/webhooks/1/t")
        (.httpError 500 "Internal Server Error" "oops") =
      .error "Failed to send Discord message: HTTP 500: Internal Server Error - oops" := by
  constructor
  · exact ((c3_post_outcome_classification (some "https://discord.com/api/webhooks/1/t")
      (by decide) (by decide)).1 204 "").mpr (Or.inr rfl)
  · rw [(c3_post_outcome_classification (some "https://discord.com/api/webhooks/1/t")
      (by decide) (by decide)).2.2.1 500 "Internal Server Error" "oops"]
    decide

/-- C6: header selection.  For lookback ≤ 0 the header is the all-time label;
for lookback = 1 it carries the single end date (today in UTC); for
lookback > 1 it carries the start date `today - lookback` and the end date
`today`, as UTC calendar days; and every successful `build_message` output
starts with that header line. -/
theorem c6_header_modes (lookback today : Int) (network : String)
    (earnings : List MinerEarning) (alpha : List AlphaStakeBalance) :
    (lookback ≤ 0 → buildHeader lookback today = "📊 Total TAO Earnings (All Time)") ∧
    (lookback = 1 → buildHeader lookback today =
      "📊 Daily TAO Earnings — " ++ dateStr today) ∧
    (1 < lookback → buildHeader lookback today =
      "📊 TAO Earnings — " ++ dateStr (today - lookback) ++ " → " ++ dateStr today) ∧
    (∀ msg, build_message lookback network earnings alpha today = .ok msg →
      ∃ rest, msg = buildHeader lookback today ++ "\n" ++ rest) := by
  refine ⟨?_, ?_, ?_, ?_⟩
  · intro h
    simp [buildHeader, h]
  · intro h
    subst h
    norm_num [buildHeader, _get_date_range]
  · intro h
    have h0 : ¬ lookback ≤ 0 := by omega
    have h1 : lookback ≠ 1 := by omega
    simp [buildHeader, _get_date_range, h0, h1]
  · intro msg h
    cases ha : alphaSection alpha with
    | error e => simp [build_message, ha] at h
    | ok alphaL =>
      rw [build_message_ok_shape lookback network earnings alpha today alphaL ha] at h
      exact ⟨_, (Except.ok.inj h).symm⟩

set_option maxRecDepth 20000 in
/-- C6 witness: the three header modes at concrete lookbacks, and the header
line of a concrete successful message. -/
theorem c6_header_modes_witness :
    buildHeader 0 0 = "📊 Total TAO Earnings (All Time)" ∧
    buildHeader 1 0 = "📊 Daily TAO Earnings — " ++ dateStr 0 ∧
    buildHeader 10 0 = "📊 TAO Earnings — " ++ dateStr (0 - 10) ++ " → " ++ dateStr 0 ∧
    (∃ rest, "📊 TAO Earnings — 1969-12-22 → 1970-01-01\nNetwork: **finney**\n\n**💰 TAO Earnings:**\n• `abc...`: **1.500000 TAO**\n**Total Earnings:** 1.500000 TAO across 1 coldkey(s)\n\n**🔷 Alpha Staked Balances:** No alpha stake data available." =
      buildHeader 10 0 ++ "\n" ++ rest) := by
  refine ⟨(c6_header_modes 0 0 "finney" [] []).1 le_rfl,
          (c6_header_modes 1 0 "finney" [] []).2.1 rfl,
          (c6_header_modes 10 0 "finney" [] []).2.2.1 (by norm_num),
          (c6_header_modes 10 0 "finney" [e7] []).2.2.2 _ (by decide)⟩

set_option maxRecDepth 20000 in
/-- C7: an earning with raw smallest-unit amount 1500000000, converted by
the 10^9 divisor as `fetch_earnings` does, is rendered as 1.500000 on both
the per-coldkey line and the total line of the built message. -/
theorem c7_smallest_unit_display :
    earningsSection [e7] =
      ["**💰 TAO Earnings:**",
       "• `abc...`: **1.500000 TAO**",
       "**Total Earnings:** 1.500000 TAO across 1 coldkey(s)",
       ""] ∧
    build_message 10 "finney" [e7] [] 0 =
      .ok "📊 TAO Earnings — 1969-12-22 → 1970-01-01\nNetwork: **finney**\n\n**💰 TAO Earnings:**\n• `abc...`: **1.500000 TAO**\n**Total Earnings:** 1.500000 TAO across 1 coldkey(s)\n\n**🔷 Alpha Staked Balances:** No alpha stake data available." := by
  exact ⟨by decide, by decide⟩

set_option maxRecDepth 20000 in
/-- C8: every balance of a non-empty alpha list is rendered as one line with
its subnet id, hotkey fragment, 4-decimal amount `rawAmount / 10^9` and its
symbol-table token (default glyph when unmapped); in particular subnet 41
with raw amount 2000000000 renders as `2.0000` with the subnet-41 symbol, and
unmapped subnet 99 renders with the default glyph. -/
theorem c8_alpha_line_rendering :
    (∀ (b : AlphaStakeBalance) (l : List AlphaStakeBalance) (out : List String),
      b ∈ l → alphaSection l = .ok out →
      ∃ v, pyFloat b.balance_rao = .ok v ∧
        ("• Subnet **" ++ toString b.netuid ++ "**" ++ hotkeyInfo b ++ ": **" ++
          formatFixed 4 (v / RAO_TO_TAO) ++ " " ++
          (ALPHA_TOKEN_SYMBOLS b.netuid).getD "α" ++ "**") ∈ out) ∧
    alphaLine b41 = .ok "• Subnet **41**: **2.0000 נ**" ∧
    alphaLine b99 = .ok "• Subnet **99**: **2.0000 α**" ∧
    build_message 10 "finney" [] [b41, b99] 0 =
      .ok "📊 TAO Earnings — 1969-12-22 → 1970-01-01\nNetwork: **finney**\n\n**💰 TAO Earnings:** No earnings data available.\n\n**🔷 Alpha Staked Balances:**\n• Subnet **41**: **2.0000 נ**\n• Subnet **99**: **2.0000 α**" := by
  refine ⟨?_, by decide, by decide, by decide⟩
  intro b l out hb hsec
  cases l with
  | nil => simp at hb
  | cons x xs =>
    cases hloop : alphaLinesLoop (x :: xs) with
    | error e => simp [alphaSection, hloop] at hsec
    | ok ls =>
      simp only [alphaSection, List.isEmpty_cons, hloop] at hsec
      have hout : "**🔷 Alpha Staked Balances:**" :: ls = out := by simpa using hsec
      obtain ⟨v, hv, hmem⟩ := alphaLinesLoop_ok_mem (x :: xs) ls hloop b hb
      exact ⟨v, hv, by rw [← hout]; exact List.mem_cons_of_mem _ hmem⟩

set_option maxRecDepth 20000 in
/-- C8 witness: the general line-shape property applied to the concrete
subnet-41 balance in a singleton list. -/
theorem c8_alpha_line_rendering_witness :
    ∃ v, pyFloat b41.balance_rao = .ok v ∧
      ("• Subnet **" ++ toString b41.netuid ++ "**" ++ hotkeyInfo b41 ++ ": **" ++
        formatFixed 4 (v / RAO_TO_TAO) ++ " " ++
        (ALPHA_TOKEN_SYMBOLS b41.netuid).getD "α" ++ "**") ∈
      ["**🔷 Alpha Staked Balances:**", "• Subnet **41**: **2.0000 נ**"] :=
  (c8_alpha_line_rendering).1 b41 [b41] _ (List.mem_singleton_self b41) (by decide)

/-- C1: any exception in the fetch/build phase is replaced by the degraded
data-unavailable message carrying the exception text, which is still handed
to the notifier; the run exits 0 exactly when the webhook post returns
normally, and exits 1 — after writing the failure to stderr — exactly when
the webhook post raises. -/
theorem c1_run_degradation_and_exit (env : Env)
    (earnResp : Except String (List AccountRecord))
    (alphaResp : Except String (List StakeItem)) (today : Int)
    (outcome : HttpOutcome) :
    (∀ exc, fetchAndBuild env earnResp alphaResp today = .error exc →
      (run env earnResp alphaResp today outcome).posted = degradedMessage exc) ∧
    ((run env earnResp alphaResp today outcome).exitCode = 0 ↔
      post_to_discord env.DISCORD_WEBHOOK_URL outcome = .ok ()) ∧
    ((run env earnResp alphaResp today outcome).exitCode = 1 ↔
      ∃ e, post_to_discord env.DISCORD_WEBHOOK_URL outcome = .error e) ∧
    (∀ e, post_to_discord env.DISCORD_WEBHOOK_URL outcome = .error e →
      (run env earnResp alphaResp today outcome).stderrLines =
        ["Failed to send Discord message: " ++ e]) := by
  refine ⟨?_, ?_, ?_, ?_⟩
  · intro exc h
    cases hp : post_to_discord env.DISCORD_WEBHOOK_URL outcome <;>
      simp [run, h, hp]
  · cases hp : post_to_discord env.DISCORD_WEBHOOK_URL outcome with
    | ok u => cases u; simp [run, hp]
    | error e => simp [run, hp]
  · cases hp : post_to_discord env.DISCORD_WEBHOOK_URL outcome with
    | ok u => cases u; simp [run, hp]
    | error e => simp [run, hp]
  · intro e hp
    simp [run, hp]

set_option maxRecDepth 20000 in
/-- C1 witness: a failed fetch still posts the degraded message and, with a
204 webhook response, the run exits 0; with a 500 webhook failure the run
exits 1 and writes the failure to stderr. -/
theorem c1_run_degradation_and_exit_witness :
    (run env0 (.error "boom") (.ok []) 0 (.response 204 "")).posted =
      degradedMessage "boom" ∧
    (run env0 (.error "boom") (.ok []) 0 (.response 204 "")).exitCode = 0 ∧
    (run env0 (.ok []) (.ok []) 0
      (.httpError 500 "Internal Server Error" "oops")).exitCode = 1 ∧
    (run env0 (.ok []) (.ok []) 0
        (.httpError 500 "Internal Server Error" "oops")).stderrLines =
      ["Failed to send Discord message: " ++
        "Failed to send Discord message: HTTP 500: Internal Server Error - oops"] := by
  refine ⟨(c1_run_degradation_and_exit env0 _ _ 0 _).1 "boom" rfl,
          (c1_run_degradation_and_exit env0 _ _ 0 _).2.1.mpr (by decide),
          (c1_run_degradation_and_exit env0 _ _ 0 _).2.2.1.mpr
            ⟨"Failed to send Discord message: HTTP 500: Internal Server Error - oops",
              by decide⟩,
          (c1_run_degradation_and_exit env0 _ _ 0 _).2.2.2
            "Failed to send Discord message: HTTP 500: Internal Server Error - oops"
            (by decide)⟩

end TaoNotifier
